import Mathlib

/-!
Verification of the metric-calculation pipeline of `scripts/generate_data.py`
and the metadata-enrichment helpers of `scripts/fetch_spotify_metadata.py`.

Modelling conventions:
* Python numbers are modelled exactly: `int` as `Nat`/`Int`, float division
  results as `ℚ`; `round` is round-half-to-even (`pyRound`, `pyRound1`,
  `pyRound2`).
* A play event's `ts` field is modelled after the external conversion
  `utc_to_pacific` has been applied: `Event.ts` holds the Pacific civil-time
  calendar components of the timestamp, or `none` when `ts` is absent/null.
* `item.get(k)` on a nullable string field yields `Option String`; absent and
  explicit-null are conflated (both give Python `None`, which is falsy).
  `item.get("ms_played", 0)` is modelled as a plain `Nat` (absent gives 0),
  `item.get("skipped", False)` as `Bool`, `item.get("reason_end", "")` as
  `String`.
* Python `dict`s (including `defaultdict`) are association lists preserving
  insertion order; a new key is appended at the end, exactly as dict insertion
  order works.  Python `sorted` is a stable sort, modelled by
  `List.insertionSort` (stable for total preorders, hence extensionally equal
  to any stable sort).
* A Python function that can raise is modelled with an `Option` result,
  `none` standing for the raised exception.
-/

/-- Round-half-to-even on rationals, the behaviour of Python's `round(x)`. -/
def pyRound (q : ℚ) : ℤ :=
  if q - ⌊q⌋ < 1/2 then ⌊q⌋
  else if 1/2 < q - ⌊q⌋ then ⌊q⌋ + 1
  else if ⌊q⌋ % 2 = 0 then ⌊q⌋ else ⌊q⌋ + 1

/-- Python `round(x, 1)`: round-half-to-even at one decimal place. -/
def pyRound1 (q : ℚ) : ℚ := (pyRound (q * 10) : ℚ) / 10

/-- Python `round(x, 2)`: round-half-to-even at two decimal places. -/
def pyRound2 (q : ℚ) : ℚ := (pyRound (q * 100) : ℚ) / 100

/-- Civil time in the fixed target zone (`America/Los_Angeles`).  The external
`zoneinfo` conversion `utc_to_pacific` is treated as already applied; an event
carries the Pacific calendar components of its timestamp.  `weekday` follows
Python's `datetime.weekday()`: 0 = Monday .. 6 = Sunday. -/
structure PacificTime where
  year : Nat
  month : Nat
  day : Nat
  hour : Nat
  weekday : Nat
deriving DecidableEq

/-- One row of the streaming-history input file (§3 of the spec). -/
structure Event where
  ts : Option PacificTime
  spotify_track_uri : Option String
  master_metadata_track_name : Option String
  master_metadata_album_artist_name : Option String
  master_metadata_album_album_name : Option String
  ms_played : Nat
  skipped : Bool
  reason_end : String
deriving DecidableEq

/-- Python truthiness filter for a nullable string field: `None` and `""` are
falsy, any other string is kept. -/
def strTruthy : Option String → Option String
  | none => none
  | some s => if s = "" then none else some s

/-- Lookup in an insertion-ordered association list (Python dict read). -/
def lookupA {K A : Type} [DecidableEq K] : List (K × A) → K → Option A
  | [], _ => none
  | (k1, a) :: rest, k => if k1 = k then some a else lookupA rest k

/-- Mutating update of a Python (default)dict entry: replace the value at the
key in place, or append `(k, f dflt)` when the key is new (dict insertion
order appends new keys at the end). -/
def updateA {K A : Type} [DecidableEq K] (m : List (K × A)) (k : K) (f : A → A) (dflt : A) :
    List (K × A) :=
  match m with
  | [] => [(k, f dflt)]
  | (k1, a) :: rest => if k1 = k then (k1, f a) :: rest else (k1, a) :: updateA rest k f dflt

/-- `calculate_overview` result record. -/
structure Overview where
  total_plays : Nat
  total_minutes : ℤ
  total_hours : ℚ
  total_days : ℚ
  unique_artists : Nat
  unique_tracks : Nat
deriving DecidableEq

/-- `sum(item.get("ms_played", 0) for item in data)`. -/
def totalMs (data : List Event) : Nat := (data.map (fun e => e.ms_played)).sum

/-- The `artists` set of `calculate_overview`: distinct truthy artist names
(as a deduplicated list; only its cardinality is used). -/
def overviewArtists (data : List Event) : List String :=
  (data.filterMap (fun e => strTruthy e.master_metadata_album_artist_name)).dedup

/-- The `tracks` set of `calculate_overview`: distinct truthy track URIs. -/
def overviewTracks (data : List Event) : List String :=
  (data.filterMap (fun e => strTruthy e.spotify_track_uri)).dedup

/-- `calculate_overview` of `generate_data.py`. -/
def calculate_overview (data : List Event) : Overview :=
  { total_plays := data.length
    total_minutes := pyRound ((totalMs data : ℚ) / 60000)
    total_hours := pyRound1 ((totalMs data : ℚ) / 3600000)
    total_days := pyRound1 ((totalMs data : ℚ) / 86400000)
    unique_artists := (overviewArtists data).length
    unique_tracks := (overviewTracks data).length }

/-- Accumulator of the `artist_time` defaultdict: `{"ms": 0, "plays": 0}`. -/
structure ArtistAcc where
  ms : Nat
  plays : Nat
deriving DecidableEq

/-- The aggregation loop of `calculate_top_artists`. -/
def artistFoldGo (m : List (String × ArtistAcc)) : List Event → List (String × ArtistAcc)
  | [] => m
  | e :: rest =>
    match strTruthy e.master_metadata_album_artist_name with
    | none => artistFoldGo m rest
    | some a =>
      artistFoldGo (updateA m a (fun s => ⟨s.ms + e.ms_played, s.plays + 1⟩) ⟨0, 0⟩) rest

/-- The `artist_time` dict after the loop of `calculate_top_artists`. -/
def artist_time (data : List Event) : List (String × ArtistAcc) := artistFoldGo [] data

/-- `sorted(..., key=lambda x: x[1]["ms"], reverse=True)[:limit]` — the `top`
variable of `calculate_top_artists` (stable descending sort by ms). -/
def top_artists_ranked (data : List Event) (limit : Nat) : List (String × ArtistAcc) :=
  (List.insertionSort (fun x y : String × ArtistAcc => y.2.ms ≤ x.2.ms) (artist_time data)).take limit

/-- `max_ms = top[0][1]["ms"] if top else 1` in `calculate_top_artists`. -/
def top_artists_max_ms (data : List Event) (limit : Nat) : Nat :=
  match top_artists_ranked data limit with
  | [] => 1
  | p :: _ => p.2.ms

/-- One output entry of `calculate_top_artists`. -/
structure TopArtistEntry where
  artist : String
  minutes : ℤ
  hours : ℚ
  plays : Nat
  pct : ℤ
deriving DecidableEq

/-- `calculate_top_artists`.  When `top` is non-empty and its first entry has
0 ms, Python evaluates `0 / 0` in the `pct` expression and raises
`ZeroDivisionError`; that raise is modelled as `none`. -/
def calculate_top_artists (data : List Event) (limit : Nat) : Option (List TopArtistEntry) :=
  match top_artists_ranked data limit, top_artists_max_ms data limit with
  | [], _ => some []
  | _ :: _, 0 => none
  | p :: rest, maxMs =>
    some ((p :: rest).map (fun x =>
      { artist := x.1
        minutes := pyRound ((x.2.ms : ℚ) / 60000)
        hours := pyRound1 ((x.2.ms : ℚ) / 3600000)
        plays := x.2.plays
        pct := pyRound ((x.2.ms : ℚ) / maxMs * 100) }))

/-- Accumulator of the `track_time` defaultdict of `calculate_top_tracks`. -/
structure TrackAcc where
  ms : Nat
  plays : Nat
  artist : String
  name : String
deriving DecidableEq

/-- The composite grouping key `f"{track}|||{artist}"`. -/
def trackKey (track artist : String) : String := track ++ "|||" ++ artist

/-- The aggregation loop of `calculate_top_tracks`. -/
def trackFoldGo (m : List (String × TrackAcc)) : List Event → List (String × TrackAcc)
  | [] => m
  | e :: rest =>
    match strTruthy e.master_metadata_track_name,
        strTruthy e.master_metadata_album_artist_name with
    | some track, some artist =>
      trackFoldGo
        (updateA m (trackKey track artist)
          (fun s => ⟨s.ms + e.ms_played, s.plays + 1, artist, track⟩) ⟨0, 0, "", ""⟩) rest
    | _, _ => trackFoldGo m rest

/-- The `track_time` dict after the loop of `calculate_top_tracks`. -/
def track_time (data : List Event) : List (String × TrackAcc) := trackFoldGo [] data

/-- The `top` variable of `calculate_top_tracks` (stable descending by ms). -/
def top_tracks_ranked (data : List Event) (limit : Nat) : List (String × TrackAcc) :=
  (List.insertionSort (fun x y : String × TrackAcc => y.2.ms ≤ x.2.ms) (track_time data)).take limit

/-- `max_ms = top[0][1]["ms"] if top else 1` in `calculate_top_tracks`. -/
def top_tracks_max_ms (data : List Event) (limit : Nat) : Nat :=
  match top_tracks_ranked data limit with
  | [] => 1
  | p :: _ => p.2.ms

/-- One output entry of `calculate_top_tracks`. -/
structure TopTrackEntry where
  track : String
  artist : String
  minutes : ℤ
  hours : ℚ
  plays : Nat
  pct : ℤ
deriving DecidableEq

/-- `calculate_top_tracks`; as with artists, a 0-ms top entry makes Python
raise `ZeroDivisionError` in the `pct` expression, modelled as `none`. -/
def calculate_top_tracks (data : List Event) (limit : Nat) : Option (List TopTrackEntry) :=
  match top_tracks_ranked data limit, top_tracks_max_ms data limit with
  | [], _ => some []
  | _ :: _, 0 => none
  | p :: rest, maxMs =>
    some ((p :: rest).map (fun x =>
      { track := x.2.name
        artist := x.2.artist
        minutes := pyRound ((x.2.ms : ℚ) / 60000)
        hours := pyRound1 ((x.2.ms : ℚ) / 3600000)
        plays := x.2.plays
        pct := pyRound ((x.2.ms : ℚ) / maxMs * 100) }))

/-- Generic play counter keyed by `keyf` (the `defaultdict(int)` pattern of the
heatmap functions and of `find_peak_hours`); events whose key is `none` are
skipped. -/
def countByGo {K : Type} [DecidableEq K] (keyf : Event → Option K)
    (m : List (K × Nat)) : List Event → List (K × Nat)
  | [] => m
  | e :: rest =>
    match keyf e with
    | none => countByGo keyf m rest
    | some k => countByGo keyf (updateA m k (fun n => n + 1) 0) rest

/-- Accumulator `{"plays": 0, "ms": 0}` used by several metric functions. -/
structure PlaysMs where
  plays : Nat
  ms : Nat
deriving DecidableEq

/-- Generic plays/ms aggregator keyed by `keyf` (the
`defaultdict(lambda: {"plays": 0, "ms": 0})` pattern). -/
def statByGo {K : Type} [DecidableEq K] (keyf : Event → Option K)
    (m : List (K × PlaysMs)) : List Event → List (K × PlaysMs)
  | [] => m
  | e :: rest =>
    match keyf e with
    | none => statByGo keyf m rest
    | some k => statByGo keyf (updateA m k (fun s => ⟨s.plays + 1, s.ms + e.ms_played⟩) ⟨0, 0⟩) rest

/-- One entry of `calculate_hourly_heatmap`. -/
structure HourlyHeatmapEntry where
  month : Nat
  hour : Nat
  plays : Nat
deriving DecidableEq

/-- `calculate_hourly_heatmap`: plays per (month, hour), dict iteration order. -/
def calculate_hourly_heatmap (data : List Event) : List HourlyHeatmapEntry :=
  (countByGo (fun e => e.ts.map (fun dt => (dt.month, dt.hour))) [] data).map
    (fun p => ⟨p.1.1, p.1.2, p.2⟩)

/-- One entry of `calculate_weekday_hour_heatmap`. -/
structure WeekdayHourEntry where
  month : Nat
  weekday : Nat
  hour : Nat
  plays : Nat
deriving DecidableEq

/-- `calculate_weekday_hour_heatmap`: plays per (month, weekday, hour). -/
def calculate_weekday_hour_heatmap (data : List Event) : List WeekdayHourEntry :=
  (countByGo (fun e => e.ts.map (fun dt => (dt.month, dt.weekday, dt.hour))) [] data).map
    (fun p => ⟨p.1.1, p.1.2.1, p.1.2.2, p.2⟩)

/-- One entry of `calculate_day_hour_heatmap`. -/
structure DayHourEntry where
  month : Nat
  day : Nat
  hour : Nat
  plays : Nat
deriving DecidableEq

/-- `calculate_day_hour_heatmap`: plays per (month, day-of-month, hour). -/
def calculate_day_hour_heatmap (data : List Event) : List DayHourEntry :=
  (countByGo (fun e => e.ts.map (fun dt => (dt.month, dt.day, dt.hour))) [] data).map
    (fun p => ⟨p.1.1, p.1.2.1, p.1.2.2, p.2⟩)

/-- One entry of `calculate_hourly_distribution`. -/
structure HourlyDistEntry where
  hour : Nat
  plays : Nat
  minutes : ℤ
deriving DecidableEq

/-- `calculate_hourly_distribution`: per-hour plays and minutes, ascending by
hour (`sorted(hours.items())`; dict keys are distinct so the tuple order is
the key order). -/
def calculate_hourly_distribution (data : List Event) : List HourlyDistEntry :=
  (List.insertionSort (fun x y : Nat × PlaysMs => x.1 ≤ y.1)
      (statByGo (fun e => e.ts.map (fun dt => dt.hour)) [] data)).map
    (fun p => ⟨p.1, p.2.plays, pyRound ((p.2.ms : ℚ) / 60000)⟩)

/-- Insertion into a Python `set`, modelled as append-if-absent (only the
cardinality and membership of these sets are ever consumed). -/
def insertSet {α : Type} [DecidableEq α] (s : List α) (a : α) : List α :=
  if a ∈ s then s else s ++ [a]

/-- One weekday/weekend bucket of `calculate_weekday_vs_weekend`:
`{"plays": 0, "ms": 0, "artists": set(), "days": set()}`. -/
structure WBucket where
  plays : Nat
  ms : Nat
  artists : List String
  days : List (Nat × Nat × Nat)
deriving DecidableEq

/-- Loop state of `calculate_weekday_vs_weekend`: the two buckets plus the
`weekday_artists` / `weekend_artists` ms tallies. -/
structure WState where
  weekday : WBucket
  weekend : WBucket
  weekday_artists : List (String × Nat)
  weekend_artists : List (String × Nat)
deriving DecidableEq

/-- Per-event bucket mutation of `calculate_weekday_vs_weekend`. -/
def bucketAdd (b : WBucket) (e : Event) (dateKey : Nat × Nat × Nat) : WBucket :=
  { plays := b.plays + 1
    ms := b.ms + e.ms_played
    artists :=
      match strTruthy e.master_metadata_album_artist_name with
      | none => b.artists
      | some a => insertSet b.artists a
    days := insertSet b.days dateKey }

/-- One loop iteration of `calculate_weekday_vs_weekend`; events without a
timestamp are skipped, weekend means `weekday() >= 5`. -/
def wStep (st : WState) (e : Event) : WState :=
  match e.ts with
  | none => st
  | some dt =>
    if 5 ≤ dt.weekday then
      { st with
        weekend := bucketAdd st.weekend e (dt.year, dt.month, dt.day)
        weekend_artists :=
          match strTruthy e.master_metadata_album_artist_name with
          | none => st.weekend_artists
          | some a => updateA st.weekend_artists a (fun n => n + e.ms_played) 0 }
    else
      { st with
        weekday := bucketAdd st.weekday e (dt.year, dt.month, dt.day)
        weekday_artists :=
          match strTruthy e.master_metadata_album_artist_name with
          | none => st.weekday_artists
          | some a => updateA st.weekday_artists a (fun n => n + e.ms_played) 0 }

/-- The event loop of `calculate_weekday_vs_weekend`. -/
def wFoldGo (st : WState) : List Event → WState
  | [] => st
  | e :: rest => wFoldGo (wStep st e) rest

/-- One `top_artists` entry of the weekday/weekend comparison. -/
structure TopWArtist where
  artist : String
  minutes : ℤ
deriving DecidableEq

/-- One side (`weekday` or `weekend`) of the comparison output. -/
structure WSide where
  total_hours : ℚ
  total_plays : Nat
  days_count : Nat
  avg_hours_per_day : ℚ
  avg_plays_per_day : ℚ
  unique_artists : Nat
  top_artists : List TopWArtist
deriving DecidableEq

/-- Output of `calculate_weekday_vs_weekend`. -/
structure WvW where
  weekday : WSide
  weekend : WSide
deriving DecidableEq

/-- Builds one side of the output: `len(days) or 1` guards the per-day
normalisation, top artists are the 3 largest ms tallies (stable descending). -/
def mkWSide (b : WBucket) (artistMap : List (String × Nat)) : WSide :=
  { total_hours := pyRound1 ((b.ms : ℚ) / 3600000)
    total_plays := b.plays
    days_count := if b.days.length = 0 then 1 else b.days.length
    avg_hours_per_day :=
      pyRound2 ((b.ms : ℚ) / 3600000 / (if b.days.length = 0 then 1 else b.days.length))
    avg_plays_per_day :=
      pyRound1 ((b.plays : ℚ) / (if b.days.length = 0 then 1 else b.days.length))
    unique_artists := b.artists.length
    top_artists :=
      ((List.insertionSort (fun x y : String × Nat => y.2 ≤ x.2) artistMap).take 3).map
        (fun p => ⟨p.1, pyRound ((p.2 : ℚ) / 60000)⟩) }

/-- `calculate_weekday_vs_weekend` of `generate_data.py`. -/
def calculate_weekday_vs_weekend (data : List Event) : WvW :=
  { weekday := mkWSide (wFoldGo ⟨⟨0, 0, [], []⟩, ⟨0, 0, [], []⟩, [], []⟩ data).weekday
      (wFoldGo ⟨⟨0, 0, [], []⟩, ⟨0, 0, [], []⟩, [], []⟩ data).weekday_artists
    weekend := mkWSide (wFoldGo ⟨⟨0, 0, [], []⟩, ⟨0, 0, [], []⟩, [], []⟩ data).weekend
      (wFoldGo ⟨⟨0, 0, [], []⟩, ⟨0, 0, [], []⟩, [], []⟩ data).weekend_artists }

/-- Accumulator of the `track_stats` defaultdict of `calculate_skipped_tracks`. -/
structure SkipAcc where
  total_plays : Nat
  skipped : Nat
  name : String
  artist : String
deriving DecidableEq

/-- The aggregation loop of `calculate_skipped_tracks`: per (track, artist)
key, count plays and count events with the skipped flag or a
`fwdbtn`/`backbtn` end reason. -/
def skipFoldGo (m : List (String × SkipAcc)) : List Event → List (String × SkipAcc)
  | [] => m
  | e :: rest =>
    match strTruthy e.master_metadata_track_name,
        strTruthy e.master_metadata_album_artist_name with
    | some track, some artist =>
      skipFoldGo
        (updateA m (trackKey track artist)
          (fun s =>
            ⟨s.total_plays + 1,
             s.skipped + (if e.skipped || e.reason_end == "fwdbtn" || e.reason_end == "backbtn"
               then 1 else 0),
             track, artist⟩)
          ⟨0, 0, "", ""⟩) rest
    | _, _ => skipFoldGo m rest

/-- One output entry of `calculate_skipped_tracks`. -/
structure SkippedEntry where
  track : String
  artist : String
  total_plays : Nat
  skipped : Nat
  skip_rate : ℤ
deriving DecidableEq

/-- The `candidates` list of `calculate_skipped_tracks`: keys with at least
`min_plays` plays whose raw skip rate exceeds 0.3. -/
def skipped_candidates (data : List Event) (min_plays : Nat) : List SkippedEntry :=
  (skipFoldGo [] data).filterMap (fun p =>
    if min_plays ≤ p.2.total_plays then
      if (3 : ℚ)/10 < (p.2.skipped : ℚ) / p.2.total_plays then
        some ⟨p.2.name, p.2.artist, p.2.total_plays, p.2.skipped,
          pyRound ((p.2.skipped : ℚ) / p.2.total_plays * 100)⟩
      else none
    else none)

/-- `calculate_skipped_tracks`: candidates sorted descending by the rounded
`skip_rate`, truncated to `limit`. -/
def calculate_skipped_tracks (data : List Event) (min_plays limit : Nat) : List SkippedEntry :=
  (List.insertionSort (fun x y : SkippedEntry => y.skip_rate ≤ x.skip_rate)
    (skipped_candidates data min_plays)).take limit

/-- The `month_names` table of `calculate_monthly_trend`. -/
def month_names : List String :=
  ["", "Ene", "Feb", "Mar", "Abr", "May", "Jun", "Jul", "Ago", "Sep", "Oct", "Nov", "Dic"]

/-- The `months` dict of `calculate_monthly_trend`: plays and ms per Pacific
month of the timestamp-bearing events. -/
def monthStats (data : List Event) : List (Nat × PlaysMs) :=
  statByGo (fun e => e.ts.map (fun dt => dt.month)) [] data

/-- A monthly-trend entry before the delta pass. -/
structure MonthBase where
  month : Nat
  month_name : String
  plays : Nat
  hours : ℚ
deriving DecidableEq

/-- The `result` list of `calculate_monthly_trend` before the delta pass:
months ascending (`sorted(months.items())`), hours rounded to 1 decimal.
Months of real timestamps lie in 1..12, within `month_names`. -/
def monthly_base (data : List Event) : List MonthBase :=
  (List.insertionSort (fun x y : Nat × PlaysMs => x.1 ≤ y.1) (monthStats data)).map
    (fun p => ⟨p.1, month_names.getD p.1 (""), p.2.plays, pyRound1 ((p.2.ms : ℚ) / 3600000)⟩)

/-- A monthly-trend entry after the delta pass. -/
structure MonthEntry where
  month : Nat
  month_name : String
  plays : Nat
  hours : ℚ
  delta : ℚ
  delta_pct : ℤ
deriving DecidableEq

/-- The delta pass for the entries with index `i >= 1`: each entry's `delta`
is `round(hours - prev_hours, 1)` and `delta_pct` is the rounded percent
change, or 0 when the previous hours are 0. -/
def deltaGo (prev : ℚ) : List MonthBase → List MonthEntry
  | [] => []
  | b :: rest =>
    { month := b.month, month_name := b.month_name, plays := b.plays, hours := b.hours
      delta := pyRound1 (b.hours - prev)
      delta_pct := if 0 < prev then pyRound ((b.hours - prev) / prev * 100) else 0 }
      :: deltaGo b.hours rest

/-- `result` after the delta pass: the first entry gets `delta = 0` and
`delta_pct = 0`, the rest are produced by `deltaGo`. -/
def monthly_with_deltas (data : List Event) : List MonthEntry :=
  match monthly_base data with
  | [] => []
  | b :: rest =>
    { month := b.month, month_name := b.month_name, plays := b.plays, hours := b.hours
      delta := 0, delta_pct := 0 } :: deltaGo b.hours rest

/-- A finished monthly-trend entry. -/
structure MonthFull where
  month : Nat
  month_name : String
  plays : Nat
  hours : ℚ
  delta : ℚ
  delta_pct : ℤ
  is_peak : Bool
  is_inflection : Bool
deriving DecidableEq

/-- Python `max(xs, key=f)` over `best :: xs`: keeps the first maximal
element (replacement only on strict increase). -/
def pyMaxBy {α : Type} (f : α → ℚ) (best : α) : List α → α
  | [] => best
  | x :: xs => pyMaxBy f (if f best < f x then x else best) xs

/-- `calculate_monthly_trend`: the delta-annotated months, with the first
maximal-hours month flagged `is_peak` and the first maximal-delta month
flagged `is_inflection` (months are compared by their `month` number). -/
def calculate_monthly_trend (data : List Event) : List MonthFull :=
  match monthly_with_deltas data with
  | [] => []
  | r0 :: rest =>
    (r0 :: rest).map (fun r =>
      ⟨r.month, r.month_name, r.plays, r.hours, r.delta, r.delta_pct,
        r.month == (pyMaxBy (fun x => x.hours) r0 rest).month,
        r.month == (pyMaxBy (fun x => x.delta) r0 rest).month⟩)

/-- `BIRTHDAY = (4, 6)`. -/
def BIRTHDAY : Nat × Nat := (4, 6)

/-- `MEXICAN_HOLIDAYS`, in dict insertion order. -/
def MEXICAN_HOLIDAYS : List ((Nat × Nat) × String) :=
  [((1, 1), "Año Nuevo"),
   ((2, 5), "Día de la Constitución"),
   ((3, 21), "Natalicio de Benito Juárez"),
   ((5, 1), "Día del Trabajo"),
   ((5, 5), "Cinco de Mayo"),
   ((9, 16), "Día de la Independencia"),
   ((11, 2), "Día de los Muertos"),
   ((11, 20), "Revolución Mexicana"),
   ((12, 25), "Navidad")]

/-- The `daily_stats` dict of `calculate_special_days`: plays/ms per
(month, day). -/
def daily_stats (data : List Event) : List ((Nat × Nat) × PlaysMs) :=
  statByGo (fun e => e.ts.map (fun dt => (dt.month, dt.day))) [] data

/-- One value of the `special` dict. -/
structure SpecialEntry where
  date : String
  plays : Nat
  minutes : ℤ
deriving DecidableEq

/-- `calculate_special_days`: the `special` dict as an insertion-ordered list;
the birthday entry first if its date appears in the data, then one entry per
holiday present in the data. -/
def calculate_special_days (data : List Event) : List (String × SpecialEntry) :=
  (match lookupA (daily_stats data) BIRTHDAY with
   | none => []
   | some s => [("birthday", ⟨"6 de abril", s.plays, pyRound ((s.ms : ℚ) / 60000)⟩)])
  ++ MEXICAN_HOLIDAYS.filterMap (fun p =>
    match lookupA (daily_stats data) p.1 with
    | none => none
    | some s =>
      some ("mx_" ++ toString p.1.1 ++ "_" ++ toString p.1.2,
        ⟨p.2, s.plays, pyRound ((s.ms : ℚ) / 60000)⟩))

/-- The `hours` play counter of `find_peak_hours`. -/
def hourCounts (data : List Event) : List (Nat × Nat) :=
  countByGo (fun e => e.ts.map (fun dt => dt.hour)) [] data

/-- Output of `find_peak_hours`. -/
structure PeakInfo where
  peak_hour : Nat
  top_hours : List Nat
  description : String
deriving DecidableEq

/-- `find_peak_hours`: hours ranked by play count (stable descending); the
busiest hour is `peak_hour`, the 5 busiest are reported ascending, and the
description spans their min and max.  With no timestamped events,
`sorted_hours` is empty, so `top_hours` is empty and Python raises
`ValueError` at `min(top_hours)` — modelled as `none` (note `peak_hour`
would have defaulted to 0, but the function never returns). -/
def find_peak_hours (data : List Event) : Option PeakInfo :=
  match List.insertionSort (fun x y : Nat × Nat => y.2 ≤ x.2) (hourCounts data) with
  | [] => none
  | p :: rest =>
    some { peak_hour := p.1
           top_hours :=
             List.insertionSort (fun a b => a ≤ b) (p.1 :: (rest.take 4).map (fun q => q.1))
           description :=
             "Más activo entre las "
               ++ toString (((rest.take 4).map (fun q => q.1)).foldl Nat.min p.1)
               ++ ":00 y "
               ++ toString (((rest.take 4).map (fun q => q.1)).foldl Nat.max p.1)
               ++ ":00" }

/-- The constant `metadata` block of the dashboard output. -/
structure DashMetadata where
  timezone : String
  data_source : String
  skip_definition : String
  min_plays_for_skip_rate : Nat
deriving DecidableEq

/-- The full dashboard object assembled by `main` of `generate_data.py`. -/
structure Dashboard where
  overview : Overview
  top_artists : List TopArtistEntry
  top_tracks : List TopTrackEntry
  hourly_heatmap : List HourlyHeatmapEntry
  weekday_hour_heatmap : List WeekdayHourEntry
  day_hour_heatmap : List DayHourEntry
  hourly_distribution : List HourlyDistEntry
  weekday_vs_weekend : WvW
  skipped_tracks : List SkippedEntry
  monthly_trend : List MonthFull
  special_days : List (String × SpecialEntry)
  peak_hours : PeakInfo
  metadata : DashMetadata
deriving DecidableEq

/-- The metrics pipeline of `main`: every metric applied to the same loaded
data, plus the constant metadata block; `none` when any component raises. -/
def build_dashboard (data : List Event) : Option Dashboard :=
  match find_peak_hours data, calculate_top_artists data 5, calculate_top_tracks data 5 with
  | some peak, some ta, some tt =>
    some { overview := calculate_overview data
           top_artists := ta
           top_tracks := tt
           hourly_heatmap := calculate_hourly_heatmap data
           weekday_hour_heatmap := calculate_weekday_hour_heatmap data
           day_hour_heatmap := calculate_day_hour_heatmap data
           hourly_distribution := calculate_hourly_distribution data
           weekday_vs_weekend := calculate_weekday_vs_weekend data
           skipped_tracks := calculate_skipped_tracks data 10 10
           monthly_trend := calculate_monthly_trend data
           special_days := calculate_special_days data
           peak_hours := peak
           metadata :=
             { timezone := "America/Los_Angeles (Pacific Time)"
               data_source := "Spotify Extended Streaming History"
               skip_definition :=
                 "Canción marcada como \x27skipped\x27 o terminada con \x27fwdbtn\x27/\x27backbtn\x27"
               min_plays_for_skip_rate := 10 } }
  | _, _, _ => none

/-- Aggregated per-track stats of `extract_unique_tracks`
(`fetch_spotify_metadata.py`); display names are last-write-wins. -/
structure TrackStats where
  ms_played : Nat
  play_count : Nat
  track_name : String
  artist_name : String
  album_name : String
deriving DecidableEq

/-- `uri.split(":")[-1]` — the last colon-separated component. -/
def track_id_of (uri : String) : String := (uri.splitOn (":")).getLastD ("")

/-- The guard `if not uri or not uri.startswith("spotify:track:"): continue`:
returns the track id for events that pass, `none` for events skipped. -/
def eventTrackId (e : Event) : Option String :=
  match e.spotify_track_uri with
  | none => none
  | some uri =>
    if uri = "" then none
    else if uri.startsWith ("spotify:track:") then some (track_id_of uri) else none

/-- Whether `extract_unique_tracks` aggregates this event at all. -/
def validTrackEvent (e : Event) : Bool := (eventTrackId e).isSome

/-- One loop iteration of `extract_unique_tracks`: accumulate ms and count,
overwrite the display-name fields (last write wins). -/
def extractStep (m : List (String × TrackStats)) (e : Event) : List (String × TrackStats) :=
  match eventTrackId e with
  | none => m
  | some tid =>
    updateA m tid
      (fun s =>
        { ms_played := s.ms_played + e.ms_played
          play_count := s.play_count + 1
          track_name := e.master_metadata_track_name.getD ("")
          artist_name := e.master_metadata_album_artist_name.getD ("")
          album_name := e.master_metadata_album_album_name.getD ("") })
      ⟨0, 0, "", "", ""⟩

/-- The event loop of `extract_unique_tracks`. -/
def extractGo (m : List (String × TrackStats)) : List Event → List (String × TrackStats)
  | [] => m
  | e :: rest => extractGo (extractStep m e) rest

/-- `extract_unique_tracks` of `fetch_spotify_metadata.py`. -/
def extract_unique_tracks (history : List Event) : List (String × TrackStats) :=
  extractGo [] history

/-- The order-independent view of one aggregated entry: its summed ms and its
play count (the display-name fields are excluded). -/
def msCount (s : TrackStats) : Nat × Nat := (s.ms_played, s.play_count)

/-- An HTTP response from the catalog service as consumed by the batch
fetchers: a status code and the decoded record array
(`response.json().get("tracks"/"artists", [])`). -/
structure HttpResponse (α : Type) where
  status_code : Nat
  records : List α

/-- The id list actually placed in a tracks request: `track_ids[:50]`. -/
def tracks_request_ids (track_ids : List String) : List String := track_ids.take 50

/-- Whether `fetch_tracks_batch` issues a request at all — the empty id list
returns `[]` before `requests.get`. -/
def fetch_tracks_contacts (track_ids : List String) : Bool := !track_ids.isEmpty

/-- `fetch_tracks_batch`: empty input or a non-200 response yields `[]`
(no retry, no raise); otherwise the decoded records. -/
def fetch_tracks_batch {α : Type} (track_ids : List String) (response : HttpResponse α) :
    List α :=
  if track_ids.isEmpty then []
  else if response.status_code ≠ 200 then []
  else response.records

/-- The id list actually placed in an artists request: `artist_ids[:50]`. -/
def artists_request_ids (artist_ids : List String) : List String := artist_ids.take 50

/-- Whether `fetch_artists_batch` issues a request at all. -/
def fetch_artists_contacts (artist_ids : List String) : Bool := !artist_ids.isEmpty

/-- `fetch_artists_batch`: same failure policy as `fetch_tracks_batch`. -/
def fetch_artists_batch {α : Type} (artist_ids : List String) (response : HttpResponse α) :
    List α :=
  if artist_ids.isEmpty then []
  else if response.status_code ≠ 200 then []
  else response.records

/-- Shorthand for building concrete play events in the examples below. -/
def mkEv (ts : Option PacificTime) (uri track artist : Option String) (ms : Nat)
    (sk : Bool) (re : String) : Event :=
  { ts := ts
    spotify_track_uri := uri
    master_metadata_track_name := track
    master_metadata_album_artist_name := artist
    master_metadata_album_album_name := none
    ms_played := ms
    skipped := sk
    reason_end := re }

/-- A concrete Pacific timestamp: Monday 2025-01-06, 09:00. -/
def tJanMon : PacificTime := ⟨2025, 1, 6, 9, 0⟩

/-- A concrete event with no timestamp but a truthy artist name. -/
def evNoTs : Event := mkEv none none (some ("t")) (some ("A")) 1000 false ("")

/-- Counterexample input for C2: 16 completed plays and 7 skipped plays of the
same (track, artist) pair; the raw skip rate 7/23 exceeds 0.3 but rounds to
30. -/
def cexC2 : List Event :=
  List.replicate 16 (mkEv none none (some ("T")) (some ("A")) 1000 false (""))
    ++ List.replicate 7 (mkEv none none (some ("T")) (some ("A")) 1000 true (""))

/-- Counterexample input for C3: two artists with equal summed ms. -/
def cexC3 : List Event :=
  [mkEv none none (some ("tA")) (some ("A")) 1000 false (""),
   mkEv none none (some ("tB")) (some ("B")) 1000 false ("")]

/-- Counterexample input for C5: an event whose artist name is the empty
string — non-null, but falsy for Python. -/
def cexC5 : List Event := [mkEv none none none (some ("")) 0 false ("")]

/-- Unique-artist count as claim C5 words it (`distinct non-null artist
names`), for comparison with the implementation's truthiness-based count. -/
def claimed_unique_artists (data : List Event) : Nat :=
  ((data.filterMap (fun e => e.master_metadata_album_artist_name)).dedup).length

/-- Failing input for C9: two events whose (track, artist) pairs differ but
whose `f"{track}|||{artist}"` keys collide. -/
def cexC9 : List Event :=
  [mkEv none none (some ("a|||b")) (some ("c")) 1000 false (""),
   mkEv none none (some ("a")) (some ("b|||c")) 2000 false ("")]

/-- Witness input for C3: two artists/tracks with distinct positive ms. -/
def witC3 : List Event :=
  [mkEv none none (some ("tA")) (some ("A")) 3600000 false (""),
   mkEv none none (some ("tB")) (some ("B")) 1800000 false ("")]

/-- Witness input for C2: ten plays of one pair, all skipped. -/
def witC2 : List Event :=
  List.replicate 10 (mkEv none none (some ("T")) (some ("A")) 1000 true (""))

/-- Witness input for C4 and C10: one timestamped event of exactly one hour,
plus (for C10) one event without a timestamp. -/
def witC4 : List Event := [mkEv (some tJanMon) none (some ("t")) (some ("A")) 3600000 false ("")]

/-- Witness input for C10: a timestamped and an untimestamped event. -/
def witC10 : List Event :=
  [mkEv (some tJanMon) none (some ("t")) (some ("A")) 3600000 false (""), evNoTs]

/-- Witness inputs for C6: a valid-URI event, a second valid event of the same
track, a malformed-URI event and a permuted copy of the history. -/
def evU1 : Event :=
  mkEv none (some ("spotify:track:id1")) (some ("t1")) (some ("A")) 1000 false ("")

/-- Second C6 witness event, same track id, different ms. -/
def evU2 : Event :=
  mkEv none (some ("spotify:track:id1")) (some ("t1")) (some ("A")) 2000 false ("")

/-- Malformed-URI event for C6: skipped by `extract_unique_tracks`. -/
def evBad : Event := mkEv none (some ("foo")) (some ("t2")) (some ("B")) 500 false ("")

/-- C6 witness history. -/
def witC6 : List Event := [evU1, evBad, evU2]

/-- C6 witness history, permuted. -/
def witC6p : List Event := [evU2, evU1, evBad]

theorem floor_le_pyRound (q : ℚ) : ⌊q⌋ ≤ pyRound q := by
  unfold pyRound
  split_ifs <;> omega

theorem pyRound_le_floor_add_one (q : ℚ) : pyRound q ≤ ⌊q⌋ + 1 := by
  unfold pyRound
  split_ifs <;> omega

theorem abs_sub_pyRound (q : ℚ) : |q - (pyRound q : ℚ)| ≤ 1/2 := by
  have h0 : (⌊q⌋ : ℚ) ≤ q := Int.floor_le q
  have h1 : q < ⌊q⌋ + 1 := Int.lt_floor_add_one q
  unfold pyRound
  split_ifs with hc1 hc2 hc3 <;>
    (rw [abs_le] ; push_cast ; constructor <;> linarith)

theorem le_pyRound_of_lt {z : ℤ} {q : ℚ} (h : (z : ℚ) < q) : z ≤ pyRound q :=
  le_trans (Int.le_floor.mpr h.le) (floor_le_pyRound q)

theorem pyRound_hundred : pyRound 100 = 100 := by norm_num [pyRound]

theorem pyRound_div_self_mul_hundred {n : Nat} (h : n ≠ 0) :
    pyRound ((n : ℚ) / n * 100) = 100 := by
  rw [div_self (by exact_mod_cast h), one_mul]
  exact pyRound_hundred

/-- C1: with no timestamped event, `find_peak_hours` does not return a
`peak_hour = 0` record — it raises (`min(top_hours)` on the empty list),
modelled as `none`; shown on the empty input and on an input whose only
event lacks a timestamp.  Also, missing optional fields can make other
metric functions raise: an event with an absent `ms_played` (default 0)
makes `calculate_top_artists` divide 0 by 0 in its pct expression. -/
theorem find_peak_hours_raises_without_timestamps :
    find_peak_hours [] = none ∧ find_peak_hours [evNoTs] = none ∧
    calculate_top_artists [mkEv none none (some ("t")) (some ("A")) 0 false ("")] 5 = none :=
  ⟨rfl, rfl, rfl⟩

/-- C7: a batch call with an empty id list returns no records and contacts
the service not at all; a non-success response yields no records (no raise,
no retry); and a request never carries more than 50 identifiers. -/
theorem fetch_batch_failure_policy :
    ∀ (α : Type) (ids : List String) (resp : HttpResponse α),
      (ids = [] →
        fetch_tracks_batch ids resp = [] ∧ fetch_tracks_contacts ids = false ∧
        fetch_artists_batch ids resp = [] ∧ fetch_artists_contacts ids = false) ∧
      (resp.status_code ≠ 200 →
        fetch_tracks_batch ids resp = [] ∧ fetch_artists_batch ids resp = []) ∧
      (tracks_request_ids ids).length ≤ 50 ∧ (artists_request_ids ids).length ≤ 50 := by
  intro α ids resp
  refine ⟨?_, ?_, ?_, ?_⟩
  · rintro rfl
    exact ⟨rfl, rfl, rfl, rfl⟩
  · intro hs
    constructor
    · unfold fetch_tracks_batch ; split_ifs <;> simp_all
    · unfold fetch_artists_batch ; split_ifs <;> simp_all
  · exact List.length_take_le 50 ids
  · exact List.length_take_le 50 ids

theorem fetch_batch_failure_policy_witness :
    fetch_tracks_batch [] (⟨404, []⟩ : HttpResponse Nat) = [] ∧
    fetch_tracks_contacts [] = false ∧
    fetch_artists_batch (["x"]) (⟨500, [7]⟩ : HttpResponse Nat) = [] ∧
    (tracks_request_ids (["x"])).length ≤ 50 := by
  refine ⟨?_, ?_, ?_, ?_⟩
  · exact ((fetch_batch_failure_policy Nat [] ⟨404, []⟩).1 rfl).1
  · exact ((fetch_batch_failure_policy Nat [] ⟨404, []⟩).1 rfl).2.1
  · exact ((fetch_batch_failure_policy Nat (["x"]) ⟨500, [7]⟩).2.1 (by decide)).2
  · exact (fetch_batch_failure_policy Nat (["x"]) ⟨500, [7]⟩).2.2.1

/-- C8: the metrics pipeline is deterministic — equal inputs produce equal
dashboard objects (all metadata fields are constants; no clock or random
source enters any metric). -/
theorem build_dashboard_deterministic :
    ∀ d1 d2 : List Event, d1 = d2 → build_dashboard d1 = build_dashboard d2 := by
  intro d1 d2 h
  rw [h]

theorem build_dashboard_deterministic_witness :
    build_dashboard [evNoTs] = build_dashboard [evNoTs] :=
  build_dashboard_deterministic [evNoTs] [evNoTs] rfl

theorem ranked_artists_sorted (data : List Event) (limit : Nat) :
    List.Pairwise (fun a b : String × ArtistAcc => b.2.ms ≤ a.2.ms)
      (top_artists_ranked data limit) := by
  haveI : IsTotal (String × ArtistAcc) (fun a b => b.2.ms ≤ a.2.ms) :=
    ⟨fun a b => Nat.le_total b.2.ms a.2.ms⟩
  haveI : IsTrans (String × ArtistAcc) (fun a b => b.2.ms ≤ a.2.ms) :=
    ⟨fun a b c h1 h2 => Nat.le_trans h2 h1⟩
  exact List.Pairwise.sublist (List.take_sublist _ _)
    (List.sorted_insertionSort (fun x y : String × ArtistAcc => y.2.ms ≤ x.2.ms)
      (artist_time data))

theorem ranked_tracks_sorted (data : List Event) (limit : Nat) :
    List.Pairwise (fun a b : String × TrackAcc => b.2.ms ≤ a.2.ms)
      (top_tracks_ranked data limit) := by
  haveI : IsTotal (String × TrackAcc) (fun a b => b.2.ms ≤ a.2.ms) :=
    ⟨fun a b => Nat.le_total b.2.ms a.2.ms⟩
  haveI : IsTrans (String × TrackAcc) (fun a b => b.2.ms ≤ a.2.ms) :=
    ⟨fun a b c h1 h2 => Nat.le_trans h2 h1⟩
  exact List.Pairwise.sublist (List.take_sublist _ _)
    (List.sorted_insertionSort (fun x y : String × TrackAcc => y.2.ms ≤ x.2.ms)
      (track_time data))

theorem top_artists_shape_aux (data : List Event) :
    ∀ l, calculate_top_artists data 5 = some l →
      l.length ≤ 5 ∧ ∀ hd t, l = hd :: t → hd.pct = 100 := by
  intro l hl
  rcases hr : top_artists_ranked data 5 with _ | ⟨p, rest⟩
  · unfold calculate_top_artists at hl
    rw [hr] at hl
    have hl2 := Option.some.inj hl
    subst hl2
    refine ⟨by simp, ?_⟩
    intro hd t h
    simp at h
  · rcases hm : top_artists_max_ms data 5 with _ | k
    · unfold calculate_top_artists at hl
      rw [hr, hm] at hl
      exact Option.noConfusion hl
    · unfold calculate_top_artists at hl
      rw [hr, hm] at hl
      have hl2 := Option.some.inj hl
      constructor
      · have hlen : (p :: rest).length ≤ 5 := by
          have h5 := List.length_take_le 5
            (List.insertionSort (fun x y : String × ArtistAcc => y.2.ms ≤ x.2.ms)
              (artist_time data))
          rw [top_artists_ranked] at hr
          rw [hr] at h5
          exact h5
        rw [← hl2]
        simpa using hlen
      · intro hd t hht
        rw [← hl2, List.map_cons] at hht
        injection hht with h1 h2
        have hpm : p.2.ms = k + 1 := by
          have hx : top_artists_max_ms data 5 = p.2.ms := by
            unfold top_artists_max_ms
            rw [hr]
          rw [hx] at hm
          exact hm
        rw [← h1]
        show pyRound ((p.2.ms : ℚ) / (↑(k + 1) : ℚ) * 100) = 100
        rw [← hpm]
        exact pyRound_div_self_mul_hundred (by omega)

theorem top_tracks_shape_aux (data : List Event) :
    ∀ l, calculate_top_tracks data 5 = some l →
      l.length ≤ 5 ∧ ∀ hd t, l = hd :: t → hd.pct = 100 := by
  intro l hl
  rcases hr : top_tracks_ranked data 5 with _ | ⟨p, rest⟩
  · unfold calculate_top_tracks at hl
    rw [hr] at hl
    have hl2 := Option.some.inj hl
    subst hl2
    refine ⟨by simp, ?_⟩
    intro hd t h
    simp at h
  · rcases hm : top_tracks_max_ms data 5 with _ | k
    · unfold calculate_top_tracks at hl
      rw [hr, hm] at hl
      exact Option.noConfusion hl
    · unfold calculate_top_tracks at hl
      rw [hr, hm] at hl
      have hl2 := Option.some.inj hl
      constructor
      · have hlen : (p :: rest).length ≤ 5 := by
          have h5 := List.length_take_le 5
            (List.insertionSort (fun x y : String × TrackAcc => y.2.ms ≤ x.2.ms)
              (track_time data))
          rw [top_tracks_ranked] at hr
          rw [hr] at h5
          exact h5
        rw [← hl2]
        simpa using hlen
      · intro hd t hht
        rw [← hl2, List.map_cons] at hht
        injection hht with h1 h2
        have hpm : p.2.ms = k + 1 := by
          have hx : top_tracks_max_ms data 5 = p.2.ms := by
            unfold top_tracks_max_ms
            rw [hr]
          rw [hx] at hm
          exact hm
        rw [← h1]
        show pyRound ((p.2.ms : ℚ) / (↑(k + 1) : ℚ) * 100) = 100
        rw [← hpm]
        exact pyRound_div_self_mul_hundred (by omega)

/-- C3 (amended): top_artists and top_tracks have length at most 5, are
descending (not strictly: equal summed ms is possible and preserved in
insertion order) by summed milliseconds, the first returned entry's pct is
100, and the percentage denominator defaults to 1 when there are no
entries. -/
theorem top_lists_shape : ∀ data : List Event,
    (∀ l, calculate_top_artists data 5 = some l →
      l.length ≤ 5 ∧ ∀ hd t, l = hd :: t → hd.pct = 100) ∧
    List.Pairwise (fun a b : String × ArtistAcc => b.2.ms ≤ a.2.ms)
      (top_artists_ranked data 5) ∧
    (top_artists_ranked data 5 = [] → top_artists_max_ms data 5 = 1) ∧
    (∀ l, calculate_top_tracks data 5 = some l →
      l.length ≤ 5 ∧ ∀ hd t, l = hd :: t → hd.pct = 100) ∧
    List.Pairwise (fun a b : String × TrackAcc => b.2.ms ≤ a.2.ms)
      (top_tracks_ranked data 5) ∧
    (top_tracks_ranked data 5 = [] → top_tracks_max_ms data 5 = 1) := by
  intro data
  refine ⟨top_artists_shape_aux data, ranked_artists_sorted data 5, ?_,
    top_tracks_shape_aux data, ranked_tracks_sorted data 5, ?_⟩
  · intro h
    unfold top_artists_max_ms
    rw [h]
  · intro h
    unfold top_tracks_max_ms
    rw [h]

/-- C3 counterexample: with two artists of equal summed milliseconds the
ranked top list is not strictly descending by ms. -/
theorem top_artists_not_strictly_descending :
    ¬ List.Chain' (fun a b : String × ArtistAcc => b.2.ms < a.2.ms)
      (top_artists_ranked cexC3 5) := by
  have hr : top_artists_ranked cexC3 5
      = [(("A" : String), (⟨1000, 1⟩ : ArtistAcc)), ("B", ⟨1000, 1⟩)] := by decide
  rw [hr]
  simp [List.chain'_cons]

theorem top_lists_shape_witness :
    ((calculate_top_artists witC3 5).getD []).length ≤ 5 ∧
    (((calculate_top_artists witC3 5).getD []).headD ⟨"", 0, 0, 0, 0⟩).pct = 100 ∧
    ((calculate_top_tracks witC3 5).getD []).length ≤ 5 ∧
    (((calculate_top_tracks witC3 5).getD []).headD ⟨"", "", 0, 0, 0, 0⟩).pct = 100 := by
  have hA : calculate_top_artists witC3 5 =
      some [{ artist := "A", minutes := 60, hours := 1, plays := 1, pct := 100 },
            { artist := "B", minutes := 30, hours := 1/2, plays := 1, pct := 50 }] := by
    have hr : top_artists_ranked witC3 5
        = [(("A" : String), (⟨3600000, 1⟩ : ArtistAcc)), ("B", ⟨1800000, 1⟩)] := by decide
    have hm : top_artists_max_ms witC3 5 = 3600000 := by decide
    unfold calculate_top_artists
    rw [hr, hm]
    norm_num [pyRound, pyRound1]
  have hT : calculate_top_tracks witC3 5 =
      some [{ track := "tA", artist := "A", minutes := 60, hours := 1, plays := 1, pct := 100 },
            { track := "tB", artist := "B", minutes := 30, hours := 1/2, plays := 1, pct := 50 }] := by
    have hr : top_tracks_ranked witC3 5
        = [(("tA|||A" : String), (⟨3600000, 1, "A", "tA"⟩ : TrackAcc)),
           ("tB|||B", ⟨1800000, 1, "B", "tB"⟩)] := by decide
    have hm : top_tracks_max_ms witC3 5 = 3600000 := by decide
    unfold calculate_top_tracks
    rw [hr, hm]
    norm_num [pyRound, pyRound1]
  have h := top_lists_shape witC3
  have hA2 := (h.1 _ hA).2 _ _ rfl
  have hT2 := (h.2.2.2.1 _ hT).2 _ _ rfl
  refine ⟨?_, ?_, ?_, ?_⟩
  · rw [hA]
    exact (h.1 _ hA).1
  · rw [hA]
    exact hA2
  · rw [hT]
    exact (h.2.2.2.1 _ hT).1
  · rw [hT]
    exact hT2

/-- C2 (amended): every skipped-tracks entry aggregates a (track, artist) key
with at least 10 total plays whose raw skip rate — skipped events (skipped
flag or fwdbtn/backbtn end reason) over total plays — strictly exceeds 30 %;
its `skip_rate` field is that rate as a rounded percentage and is at least 30
(it can equal exactly 30, so "> 30" fails for the rounded field); the output
is sorted descending by the rounded skip rate and holds at most 10 entries. -/
theorem skipped_tracks_shape : ∀ (data : List Event) (e : SkippedEntry),
    (e ∈ calculate_skipped_tracks data 10 10 →
      10 ≤ e.total_plays ∧
      (3 : ℚ)/10 < (e.skipped : ℚ) / e.total_plays ∧
      e.skip_rate = pyRound ((e.skipped : ℚ) / e.total_plays * 100) ∧
      30 ≤ e.skip_rate) ∧
    List.Pairwise (fun a b : SkippedEntry => b.skip_rate ≤ a.skip_rate)
      (calculate_skipped_tracks data 10 10) ∧
    (calculate_skipped_tracks data 10 10).length ≤ 10 := by
  intro data e
  refine ⟨?_, ?_, ?_⟩
  · intro hmem
    have h1 : e ∈ List.insertionSort (fun x y : SkippedEntry => y.skip_rate ≤ x.skip_rate)
        (skipped_candidates data 10) := List.mem_of_mem_take hmem
    have h2 : e ∈ skipped_candidates data 10 :=
      (List.perm_insertionSort (fun x y : SkippedEntry => y.skip_rate ≤ x.skip_rate)
        (skipped_candidates data 10)).mem_iff.mp h1
    rw [skipped_candidates, List.mem_filterMap] at h2
    obtain ⟨p, -, hp⟩ := h2
    by_cases hpl : 10 ≤ p.2.total_plays
    · rw [if_pos hpl] at hp
      by_cases hrate : (3 : ℚ)/10 < (p.2.skipped : ℚ) / p.2.total_plays
      · rw [if_pos hrate] at hp
        injection hp with hp
        subst hp
        refine ⟨hpl, hrate, rfl, ?_⟩
        exact le_pyRound_of_lt (by push_cast ; linarith)
      · rw [if_neg hrate] at hp
        exact Option.noConfusion hp
    · rw [if_neg hpl] at hp
      exact Option.noConfusion hp
  · haveI : IsTotal SkippedEntry (fun a b => b.skip_rate ≤ a.skip_rate) :=
      ⟨fun a b => Int.le_total b.skip_rate a.skip_rate⟩
    haveI : IsTrans SkippedEntry (fun a b => b.skip_rate ≤ a.skip_rate) :=
      ⟨fun a b c h1 h2 => Int.le_trans h2 h1⟩
    exact List.Pairwise.sublist (List.take_sublist _ _)
      (List.sorted_insertionSort (fun x y : SkippedEntry => y.skip_rate ≤ x.skip_rate)
        (skipped_candidates data 10))
  · exact List.length_take_le 10 _

/-- C2 counterexample: 23 plays of one pair with 7 skipped give a raw rate
7/23 > 30 %, retained, but the rounded `skip_rate` field equals exactly 30 —
so not every output entry has `skip_rate > 30`. -/
theorem skipped_tracks_rate_not_strict :
    ¬ (∀ e ∈ calculate_skipped_tracks cexC2 10 10, 30 < e.skip_rate) := by
  have hf : skipFoldGo [] cexC2 = [(("T|||A" : String), (⟨23, 7, "T", "A"⟩ : SkipAcc))] := by
    decide
  have hval : pyRound ((7 : ℚ)/23 * 100) = 30 := by norm_num [pyRound]
  have hcand : skipped_candidates cexC2 10
      = [(⟨"T", "A", 23, 7, 30⟩ : SkippedEntry)] := by
    unfold skipped_candidates
    rw [hf]
    simp only [List.filterMap_cons, List.filterMap_nil]
    norm_num [SkippedEntry.mk.injEq]
    convert hval using 2
    norm_num
  have hout : calculate_skipped_tracks cexC2 10 10
      = [(⟨"T", "A", 23, 7, 30⟩ : SkippedEntry)] := by
    unfold calculate_skipped_tracks
    rw [hcand]
    rfl
  intro h
  have h30 := h (⟨"T", "A", 23, 7, 30⟩ : SkippedEntry)
    (by rw [hout] ; exact List.mem_singleton_self _)
  exact lt_irrefl _ h30

theorem skipped_tracks_shape_witness :
    10 ≤ ((⟨"T", "A", 10, 10, 100⟩ : SkippedEntry)).total_plays ∧
    30 ≤ ((⟨"T", "A", 10, 10, 100⟩ : SkippedEntry)).skip_rate ∧
    (calculate_skipped_tracks witC2 10 10).length ≤ 10 := by
  have hf : skipFoldGo [] witC2 = [(("T|||A" : String), (⟨10, 10, "T", "A"⟩ : SkipAcc))] := by
    decide
  have hval : pyRound ((10 : ℚ)/10 * 100) = 100 := by norm_num [pyRound]
  have hcand : skipped_candidates witC2 10
      = [(⟨"T", "A", 10, 10, 100⟩ : SkippedEntry)] := by
    unfold skipped_candidates
    rw [hf]
    simp only [List.filterMap_cons, List.filterMap_nil]
    norm_num [SkippedEntry.mk.injEq]
    convert hval using 2
    norm_num
  have hout : calculate_skipped_tracks witC2 10 10
      = [(⟨"T", "A", 10, 10, 100⟩ : SkippedEntry)] := by
    unfold calculate_skipped_tracks
    rw [hcand]
    rfl
  have h := skipped_tracks_shape witC2 (⟨"T", "A", 10, 10, 100⟩ : SkippedEntry)
  have hm := h.1 (by rw [hout] ; exact List.mem_singleton_self _)
  exact ⟨hm.1, hm.2.2.2, h.2.2⟩

/-- C5 counterexample: an empty-string artist name is non-null, so the claim
counts it, but `calculate_overview` tests Python truthiness and drops it. -/
theorem overview_unique_artists_cex :
    (calculate_overview cexC5).unique_artists ≠ claimed_unique_artists cexC5 := by
  decide

/-- C5 (amended): total_plays counts all events; total_minutes is
round(sum ms / 60000), hence the summed milliseconds and
total_minutes · 60000 differ by at most 30000; unique_artists and
unique_tracks are the cardinalities of the sets of distinct non-null,
non-empty (truthy) artist names and track URIs; the empty input yields an
all-zero overview. -/
theorem overview_shape : ∀ data : List Event,
    (calculate_overview data).total_plays = data.length ∧
    (calculate_overview data).total_minutes = pyRound ((totalMs data : ℚ) / 60000) ∧
    |(totalMs data : ℚ) - ((calculate_overview data).total_minutes : ℚ) * 60000| ≤ 30000 ∧
    (calculate_overview data).unique_artists
      = (data.filterMap
          (fun e => strTruthy e.master_metadata_album_artist_name)).toFinset.card ∧
    (calculate_overview data).unique_tracks
      = (data.filterMap (fun e => strTruthy e.spotify_track_uri)).toFinset.card ∧
    calculate_overview [] = ⟨0, 0, 0, 0, 0, 0⟩ := by
  intro data
  refine ⟨rfl, rfl, ?_, ?_, ?_, ?_⟩
  · show |(totalMs data : ℚ) - (pyRound ((totalMs data : ℚ) / 60000) : ℚ) * 60000| ≤ 30000
    have habs := abs_sub_pyRound ((totalMs data : ℚ) / 60000)
    have key : (totalMs data : ℚ) - (pyRound ((totalMs data : ℚ) / 60000) : ℚ) * 60000
        = ((totalMs data : ℚ) / 60000 - (pyRound ((totalMs data : ℚ) / 60000) : ℚ)) * 60000 := by
      field_simp
      ring
    rw [key, abs_mul]
    have h60 : |(60000 : ℚ)| = 60000 := by norm_num
    rw [h60]
    nlinarith [habs]
  · exact (List.card_toFinset _).symm
  · exact (List.card_toFinset _).symm
  · show Overview.mk _ _ _ _ _ _ = _
    norm_num [calculate_overview, totalMs, overviewArtists, overviewTracks,
      pyRound, pyRound1]

/-- C9: the composite key `f"{track}|||{artist}"` does not implement an iff
on (track name, artist name) pairs: the two events of `cexC9` carry the
distinct pairs ("a|||b", "c") and ("a", "b|||c"), whose keys collide, so both
events are merged into a single top-tracks entry with 2 plays and 3000 summed
ms instead of forming two entries. -/
theorem track_key_collision :
    calculate_top_tracks cexC9 5
      = some [{ track := "a", artist := "b|||c", minutes := 0, hours := 0,
                plays := 2, pct := 100 }] ∧
    trackKey ("a|||b") ("c") = trackKey ("a") ("b|||c") := by
  constructor
  · have hr : top_tracks_ranked cexC9 5
        = [(("a|||b|||c" : String), (⟨3000, 2, "b|||c", "a"⟩ : TrackAcc))] := by decide
    have hm : top_tracks_max_ms cexC9 5 = 3000 := by decide
    unfold calculate_top_tracks
    rw [hr, hm]
    norm_num [pyRound, pyRound1, -Int.self_sub_floor]
  · rfl

theorem chain_deltaGo :
    ∀ (l : List MonthBase) (prev : ℚ) (a : MonthEntry), a.hours = prev →
      List.Chain'
        (fun x y : MonthEntry =>
          y.delta = pyRound1 (y.hours - x.hours) ∧ (x.hours = 0 → y.delta_pct = 0))
        (a :: deltaGo prev l) := by
  intro l
  induction l with
  | nil =>
    intro prev a ha
    simp [deltaGo]
  | cons b rest ih =>
    intro prev a ha
    rw [deltaGo, List.chain'_cons]
    constructor
    · constructor
      · show pyRound1 (b.hours - prev) = pyRound1 (b.hours - a.hours)
        rw [ha]
      · intro h0
        show (if 0 < prev then pyRound ((b.hours - prev) / prev * 100) else 0) = 0
        rw [ha] at h0
        rw [h0]
        simp
    · exact ih b.hours _ rfl

theorem deltaGo_map_plays :
    ∀ (l : List MonthBase) (prev : ℚ),
      (deltaGo prev l).map (fun r => r.plays) = l.map (fun b => b.plays) := by
  intro l
  induction l with
  | nil => intro prev; rfl
  | cons b rest ih =>
    intro prev
    rw [deltaGo, List.map_cons, List.map_cons, ih]

/-- C4: in the monthly trend, the first entry's delta and delta_pct are both
0; each later entry's delta is `round(hours - prev_hours, 1)` with respect to
the immediately preceding entry of the sorted result, and its delta_pct is 0
whenever the preceding entry's hours are 0. -/
theorem monthly_trend_deltas : ∀ data : List Event,
    (∀ hd t, calculate_monthly_trend data = hd :: t → hd.delta = 0 ∧ hd.delta_pct = 0) ∧
    List.Chain'
      (fun x y : MonthFull =>
        y.delta = pyRound1 (y.hours - x.hours) ∧ (x.hours = 0 → y.delta_pct = 0))
      (calculate_monthly_trend data) := by
  intro data
  constructor
  · intro hd t h
    rcases hb : monthly_with_deltas data with _ | ⟨r0, rest⟩
    · unfold calculate_monthly_trend at h
      rw [hb] at h
      exact List.noConfusion h
    · unfold calculate_monthly_trend at h
      rw [hb] at h
      change _ :: _ = hd :: t at h
      injection h with h1 h2
      rcases hmb : monthly_base data with _ | ⟨b, brest⟩
      · rw [monthly_with_deltas, hmb] at hb
        exact List.noConfusion hb
      · rw [monthly_with_deltas, hmb] at hb
        injection hb with hb1 hb2
        rw [← h1, ← hb1]
        exact ⟨rfl, rfl⟩
  · rcases hb : monthly_with_deltas data with _ | ⟨r0, rest⟩
    · unfold calculate_monthly_trend
      rw [hb]
      simp
    · unfold calculate_monthly_trend
      rw [hb]
      show List.Chain' _ (List.map
        (fun r : MonthEntry =>
          ({ month := r.month, month_name := r.month_name, plays := r.plays, hours := r.hours,
             delta := r.delta, delta_pct := r.delta_pct,
             is_peak := r.month == (pyMaxBy (fun x => x.hours) r0 rest).month,
             is_inflection := r.month == (pyMaxBy (fun x => x.delta) r0 rest).month } : MonthFull))
        (r0 :: rest))
      rw [List.chain'_map]
      have hc : List.Chain'
          (fun x y : MonthEntry =>
            y.delta = pyRound1 (y.hours - x.hours) ∧ (x.hours = 0 → y.delta_pct = 0))
          (r0 :: rest) := by
        rcases hmb : monthly_base data with _ | ⟨b, brest⟩
        · rw [monthly_with_deltas, hmb] at hb
          exact List.noConfusion hb
        · rw [monthly_with_deltas, hmb] at hb
          injection hb with hb1 hb2
          rw [← hb1, ← hb2]
          exact chain_deltaGo brest b.hours _ rfl
      exact List.Chain'.imp (fun a b hab => ⟨hab.1, hab.2⟩) hc

theorem monthly_trend_deltas_witness :
    ((⟨1, "Ene", 1, 1, 0, 0, true, true⟩ : MonthFull)).delta = 0 ∧
    ((⟨1, "Ene", 1, 1, 0, 0, true, true⟩ : MonthFull)).delta_pct = 0 ∧
    List.Chain'
      (fun x y : MonthFull =>
        y.delta = pyRound1 (y.hours - x.hours) ∧ (x.hours = 0 → y.delta_pct = 0))
      (calculate_monthly_trend witC4) := by
  have hms : monthStats witC4 = [(1, (⟨1, 3600000⟩ : PlaysMs))] := by decide
  have hmb : monthly_base witC4 = [⟨1, "Ene", 1, 1⟩] := by
    unfold monthly_base
    rw [hms]
    norm_num [pyRound1, pyRound, month_names, List.insertionSort, List.orderedInsert,
      -Int.self_sub_floor]
  have hwd : monthly_with_deltas witC4 = [⟨1, "Ene", 1, 1, 0, 0⟩] := by
    rw [monthly_with_deltas, hmb]
    rfl
  have hres : calculate_monthly_trend witC4 = [⟨1, "Ene", 1, 1, 0, 0, true, true⟩] := by
    unfold calculate_monthly_trend
    rw [hwd]
    rfl
  have h := monthly_trend_deltas witC4
  have h1 := h.1 _ _ hres
  exact ⟨h1.1, h1.2, h.2⟩

theorem lookupA_updateA_self {K A : Type} [DecidableEq K]
    (m : List (K × A)) (k : K) (f : A → A) (d : A) :
    lookupA (updateA m k f d) k = some (f ((lookupA m k).getD d)) := by
  induction m with
  | nil => simp [updateA, lookupA]
  | cons p rest ih =>
    obtain ⟨k1, a⟩ := p
    by_cases h : k1 = k
    · subst h
      simp [updateA, lookupA]
    · simp [updateA, lookupA, h, ih]

theorem lookupA_updateA_ne {K A : Type} [DecidableEq K]
    (m : List (K × A)) (k k2 : K) (f : A → A) (d : A) (h : k ≠ k2) :
    lookupA (updateA m k f d) k2 = lookupA m k2 := by
  induction m with
  | nil => simp [updateA, lookupA, h]
  | cons p rest ih =>
    obtain ⟨k1, a⟩ := p
    by_cases h1 : k1 = k
    · subst h1
      simp [updateA, lookupA, h]
    · simp only [updateA, lookupA, if_neg h1]
      by_cases h2 : k1 = k2
      · simp [h2]
      · simp [h2, ih]

theorem extract_ms_spec :
    ∀ (h : List Event) (m : List (String × TrackStats)) (tid : String),
      ((lookupA (extractGo m h) tid).map (fun s => s.ms_played)).getD 0
        = ((lookupA m tid).map (fun s => s.ms_played)).getD 0
          + ((h.filter (fun e => eventTrackId e == some tid)).map
              (fun e => e.ms_played)).sum := by
  intro h
  induction h with
  | nil =>
    intro m tid
    simp [extractGo]
  | cons e rest ih =>
    intro m tid
    rw [extractGo]
    rcases hcase : eventTrackId e with _ | tid2
    · have hstep : extractStep m e = m := by rw [extractStep, hcase]
      rw [hstep, ih, List.filter_cons]
      simp [hcase]
    · have hstep : extractStep m e
          = updateA m tid2
              (fun s =>
                { ms_played := s.ms_played + e.ms_played
                  play_count := s.play_count + 1
                  track_name := e.master_metadata_track_name.getD ("")
                  artist_name := e.master_metadata_album_artist_name.getD ("")
                  album_name := e.master_metadata_album_album_name.getD ("") })
              ⟨0, 0, "", "", ""⟩ := by
        rw [extractStep, hcase]
      rw [hstep, ih, List.filter_cons]
      by_cases htid : tid2 = tid
      · subst htid
        rw [lookupA_updateA_self]
        rcases hm2 : lookupA m tid2 with _ | s
        · simp [hcase, hm2]
        · simp [hcase, hm2]
          omega
      · rw [lookupA_updateA_ne _ _ _ _ _ htid]
        simp [hcase, htid]

theorem extract_count_spec :
    ∀ (h : List Event) (m : List (String × TrackStats)) (tid : String),
      ((lookupA (extractGo m h) tid).map (fun s => s.play_count)).getD 0
        = ((lookupA m tid).map (fun s => s.play_count)).getD 0
          + (h.filter (fun e => eventTrackId e == some tid)).length := by
  intro h
  induction h with
  | nil =>
    intro m tid
    simp [extractGo]
  | cons e rest ih =>
    intro m tid
    rw [extractGo]
    rcases hcase : eventTrackId e with _ | tid2
    · have hstep : extractStep m e = m := by rw [extractStep, hcase]
      rw [hstep, ih, List.filter_cons]
      simp [hcase]
    · have hstep : extractStep m e
          = updateA m tid2
              (fun s =>
                { ms_played := s.ms_played + e.ms_played
                  play_count := s.play_count + 1
                  track_name := e.master_metadata_track_name.getD ("")
                  artist_name := e.master_metadata_album_artist_name.getD ("")
                  album_name := e.master_metadata_album_album_name.getD ("") })
              ⟨0, 0, "", "", ""⟩ := by
        rw [extractStep, hcase]
      rw [hstep, ih, List.filter_cons]
      by_cases htid : tid2 = tid
      · subst htid
        rw [lookupA_updateA_self]
        rcases hm2 : lookupA m tid2 with _ | s
        · simp [hcase, hm2]
          omega
        · simp [hcase, hm2]
          omega
      · rw [lookupA_updateA_ne _ _ _ _ _ htid]
        simp [hcase, htid]

theorem extract_none_iff :
    ∀ (h : List Event) (m : List (String × TrackStats)) (tid : String),
      lookupA (extractGo m h) tid = none ↔
        (lookupA m tid = none ∧
          h.filter (fun e => eventTrackId e == some tid) = []) := by
  intro h
  induction h with
  | nil =>
    intro m tid
    simp [extractGo]
  | cons e rest ih =>
    intro m tid
    rw [extractGo]
    rcases hcase : eventTrackId e with _ | tid2
    · have hstep : extractStep m e = m := by rw [extractStep, hcase]
      rw [hstep, ih, List.filter_cons]
      simp [hcase]
    · have hstep : extractStep m e
          = updateA m tid2
              (fun s =>
                { ms_played := s.ms_played + e.ms_played
                  play_count := s.play_count + 1
                  track_name := e.master_metadata_track_name.getD ("")
                  artist_name := e.master_metadata_album_artist_name.getD ("")
                  album_name := e.master_metadata_album_album_name.getD ("") })
              ⟨0, 0, "", "", ""⟩ := by
        rw [extractStep, hcase]
      rw [hstep, ih, List.filter_cons]
      by_cases htid : tid2 = tid
      · subst htid
        rw [lookupA_updateA_self]
        simp [hcase]
      · rw [lookupA_updateA_ne _ _ _ _ _ htid]
        simp [hcase, htid]

theorem extractGo_filter_valid :
    ∀ (h : List Event) (m : List (String × TrackStats)),
      extractGo m (h.filter validTrackEvent) = extractGo m h := by
  intro h
  induction h with
  | nil => intro m; rfl
  | cons e rest ih =>
    intro m
    rw [List.filter_cons]
    rcases hcase : eventTrackId e with _ | tid2
    · have hv : validTrackEvent e = false := by
        rw [validTrackEvent, hcase]
        rfl
      rw [hv]
      have hstep : extractStep m e = m := by rw [extractStep, hcase]
      rw [extractGo, hstep]
      exact ih m
    · have hv : validTrackEvent e = true := by
        rw [validTrackEvent, hcase]
        rfl
      rw [hv]
      show extractGo m (e :: rest.filter validTrackEvent) = _
      rw [extractGo, extractGo]
      exact ih (extractStep m e)

/-- C6: the per-track aggregation of `extract_unique_tracks` is
order-independent in its summed ms and play count — any permutation of the
history yields the same `(ms_played, play_count)` for every track id (only
the last-write-wins display-name fields may differ) — and events with a
missing track URI or a URI not of the `spotify:track:` shape are skipped:
filtering them away changes nothing. -/
theorem extract_unique_tracks_order_independent :
    ∀ h1 h2 : List Event, h1.Perm h2 →
      (∀ tid : String,
        (lookupA (extract_unique_tracks h1) tid).map msCount
          = (lookupA (extract_unique_tracks h2) tid).map msCount) ∧
      extract_unique_tracks (h1.filter validTrackEvent) = extract_unique_tracks h1 := by
  intro h1 h2 hperm
  constructor
  · intro tid
    have hpf := hperm.filter (fun e => eventTrackId e == some tid)
    rcases hl1 : lookupA (extract_unique_tracks h1) tid with _ | s1
    · have hf1 := ((extract_none_iff h1 [] tid).mp hl1).2
      have hf2 : h2.filter (fun e => eventTrackId e == some tid) = [] := by
        have := hpf
        rw [hf1] at this
        exact this.symm.eq_nil
      have hl2 : lookupA (extract_unique_tracks h2) tid = none :=
        (extract_none_iff h2 [] tid).mpr ⟨rfl, hf2⟩
      rw [hl2]
    · rcases hl2 : lookupA (extract_unique_tracks h2) tid with _ | s2
      · have hf2 := ((extract_none_iff h2 [] tid).mp hl2).2
        have hf1 : h1.filter (fun e => eventTrackId e == some tid) = [] := by
          have := hpf
          rw [hf2] at this
          exact this.eq_nil
        have : lookupA (extract_unique_tracks h1) tid = none :=
          (extract_none_iff h1 [] tid).mpr ⟨rfl, hf1⟩
        rw [this] at hl1
        exact Option.noConfusion hl1
      · unfold extract_unique_tracks at hl1 hl2
        have hms1 := extract_ms_spec h1 [] tid
        have hms2 := extract_ms_spec h2 [] tid
        have hct1 := extract_count_spec h1 [] tid
        have hct2 := extract_count_spec h2 [] tid
        rw [hl1] at hms1 hct1
        rw [hl2] at hms2 hct2
        simp only [lookupA] at hms1 hms2 hct1 hct2
        simp at hms1 hms2 hct1 hct2
        have hsum : ((h1.filter (fun e => eventTrackId e == some tid)).map
              (fun e => e.ms_played)).sum
            = ((h2.filter (fun e => eventTrackId e == some tid)).map
              (fun e => e.ms_played)).sum :=
          (hpf.map (fun e => e.ms_played)).sum_eq
        have hlen : (h1.filter (fun e => eventTrackId e == some tid)).length
            = (h2.filter (fun e => eventTrackId e == some tid)).length :=
          hpf.length_eq
        show some (msCount s1) = some (msCount s2)
        rw [msCount, msCount, Option.some.injEq, Prod.mk.injEq]
        constructor
        · rw [hms1, hms2, hsum]
        · rw [hct1, hct2, hlen]
  · exact extractGo_filter_valid h1 []

theorem extract_unique_tracks_order_independent_witness :
    (lookupA (extract_unique_tracks witC6) ("id1")).map msCount
      = (lookupA (extract_unique_tracks witC6p) ("id1")).map msCount ∧
    extract_unique_tracks (witC6.filter validTrackEvent) = extract_unique_tracks witC6 := by
  have h := extract_unique_tracks_order_independent witC6 witC6p (by decide)
  exact ⟨h.1 ("id1"), h.2⟩

theorem sum_plays_updateA {K : Type} [DecidableEq K]
    (m : List (K × PlaysMs)) (k : K) (x : Nat) :
    ((updateA m k (fun s => ⟨s.plays + 1, s.ms + x⟩) ⟨0, 0⟩).map
        (fun p => p.2.plays)).sum
      = ((m.map (fun p => p.2.plays)).sum) + 1 := by
  induction m with
  | nil => simp [updateA]
  | cons p rest ih =>
    obtain ⟨k1, a⟩ := p
    by_cases h : k1 = k
    · subst h
      simp [updateA]
      omega
    · simp [updateA, h, ih]
      omega

theorem sum_plays_statByGo {K : Type} [DecidableEq K] (keyf : Event → Option K) :
    ∀ (data : List Event) (m : List (K × PlaysMs)),
      ((statByGo keyf m data).map (fun p => p.2.plays)).sum
        = ((m.map (fun p => p.2.plays)).sum) + data.countP (fun e => (keyf e).isSome) := by
  intro data
  induction data with
  | nil =>
    intro m
    simp [statByGo]
  | cons e rest ih =>
    intro m
    rw [statByGo]
    rcases hk : keyf e with _ | k
    · rw [ih, List.countP_cons]
      simp [hk]
    · rw [ih, sum_plays_updateA, List.countP_cons]
      simp [hk]
      omega

theorem monthly_trend_plays_sum (data : List Event) :
    ((calculate_monthly_trend data).map (fun r => r.plays)).sum
      = data.countP (fun e => e.ts.isSome) := by
  have hstat : ((monthStats data).map (fun p => p.2.plays)).sum
      = data.countP (fun e => e.ts.isSome) := by
    rw [monthStats, sum_plays_statByGo]
    simp
  have hbase : ((monthly_base data).map (fun b => b.plays)).sum
      = ((monthStats data).map (fun p => p.2.plays)).sum := by
    rw [monthly_base, List.map_map]
    have hperm := (List.perm_insertionSort (fun x y : Nat × PlaysMs => x.1 ≤ y.1)
      (monthStats data)).map (fun p => p.2.plays)
    exact hperm.sum_eq
  have hwd : ((monthly_with_deltas data).map (fun r => r.plays)).sum
      = ((monthly_base data).map (fun b => b.plays)).sum := by
    rcases hmb : monthly_base data with _ | ⟨b, brest⟩
    · rw [monthly_with_deltas, hmb]
      rfl
    · rw [monthly_with_deltas, hmb]
      simp only [List.map_cons, List.sum_cons, deltaGo_map_plays]
  have htrend : ((calculate_monthly_trend data).map (fun r => r.plays)).sum
      = ((monthly_with_deltas data).map (fun r => r.plays)).sum := by
    rcases hb : monthly_with_deltas data with _ | ⟨r0, rest⟩
    · unfold calculate_monthly_trend
      rw [hb]
      rfl
    · unfold calculate_monthly_trend
      rw [hb]
      simp only [List.map_map]
      exact congrArg List.sum (List.map_congr_left (fun a ha => rfl))
  rw [htrend, hwd, hbase, hstat]

theorem wFoldGo_plays :
    ∀ (data : List Event) (st : WState),
      (wFoldGo st data).weekday.plays + (wFoldGo st data).weekend.plays
        = st.weekday.plays + st.weekend.plays + data.countP (fun e => e.ts.isSome) := by
  intro data
  induction data with
  | nil =>
    intro st
    simp [wFoldGo]
  | cons e rest ih =>
    intro st
    rw [wFoldGo, ih]
    rcases hts : e.ts with _ | dt
    · simp only [wStep, hts, List.countP_cons]
      simp
    · simp only [wStep, hts, List.countP_cons]
      by_cases hw : 5 ≤ dt.weekday
      · rw [if_pos hw]
        simp [bucketAdd, hts]
        omega
      · rw [if_neg hw]
        simp [bucketAdd, hts]
        omega

theorem wvw_total_plays (data : List Event) :
    (calculate_weekday_vs_weekend data).weekday.total_plays
      + (calculate_weekday_vs_weekend data).weekend.total_plays
      = data.countP (fun e => e.ts.isSome) := by
  have h := wFoldGo_plays data ⟨⟨0, 0, [], []⟩, ⟨0, 0, [], []⟩, [], []⟩
  show (wFoldGo ⟨⟨0, 0, [], []⟩, ⟨0, 0, [], []⟩, [], []⟩ data).weekday.plays
      + (wFoldGo ⟨⟨0, 0, [], []⟩, ⟨0, 0, [], []⟩, [], []⟩ data).weekend.plays = _
  rw [h]
  simp

/-- C10: events without a timestamp still count in overview.total_plays (the
plain event count), while every timestamp-based metric sees exactly the
timestamped events: the monthly-trend plays sum to the timestamped-event
count, so do weekday plus weekend total plays, that count never exceeds
total_plays, and it equals total_plays exactly when every event has a
timestamp. -/
theorem timestamped_plays_accounting : ∀ data : List Event,
    ((calculate_monthly_trend data).map (fun r => r.plays)).sum
        = data.countP (fun e => e.ts.isSome) ∧
    (calculate_weekday_vs_weekend data).weekday.total_plays
        + (calculate_weekday_vs_weekend data).weekend.total_plays
        = data.countP (fun e => e.ts.isSome) ∧
    (calculate_overview data).total_plays = data.length ∧
    data.countP (fun e => e.ts.isSome) ≤ data.length ∧
    (data.countP (fun e => e.ts.isSome) = data.length ↔
      ∀ e ∈ data, e.ts.isSome = true) := by
  intro data
  exact ⟨monthly_trend_plays_sum data, wvw_total_plays data, rfl,
    List.countP_le_length _, List.countP_eq_length⟩

theorem timestamped_plays_accounting_witness :
    ((calculate_monthly_trend witC10).map (fun r => r.plays)).sum = 1 ∧
    (calculate_weekday_vs_weekend witC10).weekday.total_plays
      + (calculate_weekday_vs_weekend witC10).weekend.total_plays = 1 ∧
    witC10.countP (fun e => e.ts.isSome) ≤ witC10.length ∧
    witC4.countP (fun e => e.ts.isSome) = witC4.length := by
  have h := timestamped_plays_accounting witC10
  have hc : witC10.countP (fun e => e.ts.isSome) = 1 := by decide
  refine ⟨?_, ?_, h.2.2.2.1, ?_⟩
  · rw [h.1, hc]
  · rw [h.2.1, hc]
  · exact (timestamped_plays_accounting witC4).2.2.2.2.mpr (by decide)
